import Mathlib

/-!
Verification of the gosite composition + dedup + render core: a shallow
embedding of the Site/Page/Section/Component data model, the CSS/JS
deduplicating asset registries, the escaping render pipeline, the
navigation builder and the fail-fast artifact generation, together with
theorems about the behaviour of these operations.

Go methods that mutate the receiver through a pointer are embedded as
functions returning the updated value; the back-reference `SiteLink` held
by pages and sections is embedded by passing the owning `Site` explicitly.
The injected sink `Config.WriteFile` is passed to `Generate` as an explicit
function parameter so that the remaining state is first-order data.
-/

namespace Gosite

/-- Concatenation of a list of strings, modelling a sequence of buffer
writes (tinystring `Conv.Write` calls followed by one `String()`). -/
def strConcat : List String → String
  | [] => ""
  | x :: xs => x ++ strConcat xs

/-- Modelled from the spec: the character-level replacement performed by Go
stdlib `html.EscapeString`, which `src/util/escape.go` wraps: `&` becomes
`&amp;`, the apostrophe becomes `&#39;`, `<` becomes `&lt;`, `>` becomes
`&gt;` and the double quote becomes `&#34;`; every other character is kept.
The spec calls this the text-escape / attribute-escape pair. -/
def escapeChar (c : Char) : String :=
  if c = '&' then "&amp;"
  else if c = '\x27' then "&#39;"
  else if c = '<' then "&lt;"
  else if c = '>' then "&gt;"
  else if c = '\x22' then "&#34;"
  else String.singleton c

/-- Escape every character of a character list (the fold inside
`html.EscapeString`). -/
def escapeList : List Char → String
  | [] => ""
  | c :: cs => escapeChar c ++ escapeList cs

/-- EscapeHTML (src/util/escape.go, line 7): the text-escape function.
The tinystring `Conv.EscapeHTML` used at the render call sites is not under
src/; the spec describes both as the same entity-escaping pure function,
so both are modelled by this definition. -/
def EscapeHTML (s : String) : String := escapeList s.data

/-- EscapeAttr (src/util/escape.go, line 12): the attribute-escape
function; like `EscapeHTML` it wraps `html.EscapeString`. -/
def EscapeAttr (s : String) : String := escapeList s.data

/-- AssetBlock (src/env.backend.go): a raw text block stored by the asset
registries; equality is full string equality of the content. -/
structure AssetBlock where
  Content : String
deriving DecidableEq, Repr

/-- ColorScheme (src/gosite.go, lines 4-10). -/
structure ColorScheme where
  Primary : String
  Secondary : String
  Text : String
  Background : String
  Border : String
deriving DecidableEq, Repr

/-- DefaultColorScheme (src/gosite.go, lines 13-21). -/
def DefaultColorScheme : ColorScheme :=
  { Primary := "#3f88bf", Secondary := "#ff9300", Text := "#000000",
    Background := "#ffffff", Border := "#e9e9e9" }

/-- Config (src/gosite.go, lines 25-31).  `ColorScheme` is `none` when the
Go field is `nil`.  The frontend-only `EventBinder` and the injected sink
`WriteFile` are not data; the sink is passed to `Generate` explicitly. -/
structure Config where
  Title : String
  OutputDir : String
  Scheme : Option ColorScheme
deriving DecidableEq, Repr

/-- Component (src/section.go, second draft: an `any` queried for the three
capabilities).  A field is `some t` when the dynamic cast to the
corresponding renderer interface (HTMLRenderer / CSSRenderer / JSRenderer,
src/interfaces.go) succeeds and the method returns `t`; `none` when the
component does not satisfy that capability. -/
structure Component where
  html : Option String
  css : Option String
  js : Option String
deriving DecidableEq, Repr

/-- SectionBuilder (src/section.go, lines 63-70).  The `page` and `site`
back-references are passed explicitly to the operations that use them. -/
structure SectionBuilder where
  Title : String
  ModuleID : String
  content : List Component
deriving DecidableEq, Repr

/-- Page (src/page.go, lines 9-15).  The `site` back-reference is passed
explicitly to `RenderHTML`. -/
structure Page where
  title : String
  filename : String
  sections : List SectionBuilder
  head : List String
deriving DecidableEq, Repr

/-- Site (src/env.backend.go, lines 11-17).  The scratch buffer `buff` is
reset before every use in the source and carries no observable state, so it
is not part of the embedding. -/
structure Site where
  Cfg : Config
  pages : List Page
  cssBlocks : List AssetBlock
  jsBlocks : List AssetBlock
deriving DecidableEq, Repr

/-- New (src/env.backend.go, lines 20-31): fresh site; a `nil` color scheme
is replaced by the default. -/
def New (cfg : Config) : Site :=
  { Cfg := { cfg with Scheme := some (cfg.Scheme.getD DefaultColorScheme) },
    pages := [], cssBlocks := [], jsBlocks := [] }

/-- AddCSS (src/env.backend.go, lines 34-44): no-op on the empty string,
no-op when an existing block has exactly equal content (the linear scan),
otherwise append a new block at the end. -/
def Site.AddCSS (s : Site) (css : String) : Site :=
  if css = "" then s
  else if s.cssBlocks.any (fun b => b.Content = css) then s
  else { s with cssBlocks := s.cssBlocks ++ [{ Content := css }] }

/-- AddJS (src/env.backend.go, lines 47-57): same algorithm on the JS
registry. -/
def Site.AddJS (s : Site) (js : String) : Site :=
  if js = "" then s
  else if s.jsBlocks.any (fun b => b.Content = js) then s
  else { s with jsBlocks := s.jsBlocks ++ [{ Content := js }] }

/-- PageCount (src/gosite.go, lines 47-49). -/
def Site.PageCount (s : Site) : Nat := s.pages.length

/-- NewPage (src/gosite.go, lines 34-44): constructs a page, registers it
at the end of the page list and returns it for chaining. -/
def Site.NewPage (s : Site) (title filename : String) : Site × Page :=
  let p : Page := { title := title, filename := filename, sections := [], head := [] }
  ({ s with pages := s.pages ++ [p] }, p)

/-- NewSection (src/page.go, lines 18-26): appends an empty titled section
to the page and returns it for chaining. -/
def Page.NewSection (p : Page) (title : String) : Page × SectionBuilder :=
  let sec : SectionBuilder := { Title := title, ModuleID := "", content := [] }
  ({ p with sections := p.sections ++ [sec] }, sec)

/-- AddHead (src/page.go, lines 29-32): appends a trusted raw head
fragment. -/
def Page.AddHead (p : Page) (content : String) : Page :=
  { p with head := p.head ++ [content] }

/-- SectionBuilder.Add (src/section.go, lines 73-87): appends the component
and immediately forwards its styling/behavior payload, when the capability
is present, to the owning site registries. -/
def SectionBuilder.Add (s : SectionBuilder) (site : Site) (c : Component) :
    SectionBuilder × Site :=
  let s1 : SectionBuilder := { s with content := s.content ++ [c] }
  let site1 := match c.css with
    | some t => site.AddCSS t
    | none => site
  let site2 := match c.js with
    | some t => site1.AddJS t
    | none => site1
  (s1, site2)

/-- Modelled from the spec: the identifier derived from the title by
lower-casing and replacing spaces with hyphens (tinystring
`ToLower`/`Replace`, not under src/). -/
def slugify (t : String) : String := (t.toLower).replace " " "-"

/-- The identifier computed at the top of SectionBuilder.Render
(src/section.go, lines 92-95): the explicit `ModuleID` when set, the slug
of the title otherwise. -/
def SectionBuilder.effectiveId (s : SectionBuilder) : String :=
  if s.ModuleID = "" then slugify s.Title else s.ModuleID

/-- SectionBuilder.Render (src/section.go, lines 90-117): wrapper element
with the attribute-escaped identifier and class `page`, an optional heading
with the escaped title, then the card container holding the markup of each
component that satisfies the markup capability, in insertion order;
components without the capability contribute nothing. -/
def SectionBuilder.Render (s : SectionBuilder) : String :=
  "<section id=\"" ++ EscapeAttr s.effectiveId ++ "\" class=\"page\">\n"
    ++ (if s.Title = "" then "" else "  <h1>" ++ EscapeHTML s.Title ++ "</h1>\n")
    ++ ("  <div class=\"card-container\">\n"
      ++ strConcat (s.content.map fun c =>
          match c.html with
          | some h => "    " ++ h ++ "\n"
          | none => "")
      ++ "  </div>\n</section>\n")

/-- NavbarBuilder (src/env.backend.go, navbar part, lines 136-138). -/
structure NavbarBuilder where
  site : Site

/-- The fixed markup NavbarBuilder.Render writes before the page links
(src/env.backend.go, navbar part, lines 144-157). -/
def navbarHeader : String :=
  "<nav class=\"main-nav\">\n  <input type=\"checkbox\" id=\"sidebar-active\">\n  <label for=\"sidebar-active\" class=\"open-sidebar-button\">\n    <svg xmlns=\"http://www.w3.org/2000/svg\" height=\"32\" viewBox=\"0 -960 960 960\" width=\"32\">\n      <path d=\"M120-240v-80h720v80H120Zm0-200v-80h720v80H120Zm0-200v-80h720v80H120Z\"/>\n    </svg>\n  </label>\n  <label id=\"overlay\" for=\"sidebar-active\"></label>\n  <div class=\"links-container\">\n    <label for=\"sidebar-active\" class=\"close-sidebar-button\">\n      <svg xmlns=\"http://www.w3.org/2000/svg\" height=\"32\" viewBox=\"0 -960 960 960\" width=\"32\">\n        <path d=\"m256-200-56-56 224-224-224-224 56-56 224 224 224-224 56 56-224 224 224 224-56 56-224-224-224 224Z\"/>\n      </svg>\n    </label>\n"

/-- The fixed markup NavbarBuilder.Render writes after the page links
(src/env.backend.go, navbar part, lines 172-173). -/
def navbarFooter : String := "  </div>\n</nav>\n"

/-- One iteration of the page-link loop of NavbarBuilder.Render
(src/env.backend.go, navbar part, lines 160-170): the first link carries
the `home-link` class; the target is the attribute-escaped filename and the
label the escaped title. -/
def navLink (i : Nat) (p : Page) : String :=
  (if i = 0 then "    <a class=\"home-link\" href=\"" else "    <a href=\"")
    ++ EscapeAttr p.filename ++ "\">" ++ EscapeHTML p.title ++ "</a>\n"

/-- The links written by the loop of NavbarBuilder.Render, as a list, with
`i` the index of the first remaining page. -/
def navLinkList : Nat → List Page → List String
  | _, [] => []
  | i, p :: ps => navLink i p :: navLinkList (i + 1) ps

/-- NavbarBuilder.Render (src/env.backend.go, navbar part, lines 141-176):
fixed header, one link per registered page in order, fixed footer. -/
def NavbarBuilder.Render (n : NavbarBuilder) : String :=
  navbarHeader ++ strConcat (navLinkList 0 n.site.pages) ++ navbarFooter

/-- The raw string literal returned by NavbarBuilder.RenderCSS
(src/env.backend.go, navbar part, lines 179-320). -/
def navbarCSS : String :=
  "/* Main nav styles */\n.main-nav \x7b\n\theight: 60px;\n\tbackground: linear-gradient(135deg, var(--color-primary), #2c6aa0);\n\tbox-shadow: 0 2px 10px rgba(0,0,0,0.1);\n\tdisplay: flex;\n\tjustify-content: flex-end;\n\talign-items: center;\n\tposition: sticky;\n\ttop: 0;\n\tz-index: 100;\n\x7d\n\n/* Links container */\n.links-container \x7b\n\theight: 100%;\n\twidth: 100%;\n\tdisplay: flex;\n\tflex-direction: row;\n\talign-items: center;\n\x7d\n\n/* Nav links */\n.main-nav a \x7b\n\theight: 100%;\n\tpadding: 0 20px;\n\tdisplay: flex;\n\talign-items: center;\n\ttext-decoration: none;\n\tcolor: white;\n\ttransition: background 0.2s;\n\tfont-weight: 500;\n\x7d\n\n.main-nav a:hover \x7b\n\tbackground: rgba(255,255,255,0.2);\n\x7d\n\n.main-nav .home-link \x7b\n\tmargin-right: auto;\n\tfont-weight: 600;\n\x7d\n\n/* SVG styles */\n.main-nav svg \x7b\n\tfill: white;\n\x7d\n\n/* Hide checkbox and buttons by default */\n#sidebar-active \x7b\n\tdisplay: none;\n\x7d\n\n.open-sidebar-button,\n.close-sidebar-button \x7b\n\tdisplay: none;\n\x7d\n\n/* Mobile responsive styles */\n@media (max-width: 768px) \x7b\n\t.links-container \x7b\n\t\tflex-direction: column;\n\t\talign-items: flex-start;\n\t\tposition: fixed;\n\t\ttop: 0;\n\t\tright: -100%;\n\t\tz-index: 10;\n\t\twidth: 300px;\n\t\theight: 100vh;\n\t\tbackground: linear-gradient(180deg, var(--color-primary), #2c6aa0);\n\t\tbox-shadow: -5px 0 15px rgba(0, 0, 0, 0.3);\n\t\ttransition: right 0.3s ease-out;\n\t\x7d\n\n\t.main-nav a \x7b\n\t\tbox-sizing: border-box;\n\t\theight: auto;\n\t\twidth: 100%;\n\t\tpadding: 20px 30px;\n\t\tjustify-content: flex-start;\n\t\tborder-bottom: 1px solid rgba(255,255,255,0.1);\n\t\x7d\n\n\t.main-nav .home-link \x7b\n\t\tmargin-right: 0;\n\t\x7d\n\n\t.open-sidebar-button,\n\t.close-sidebar-button \x7b\n\t\tpadding: 20px;\n\t\tdisplay: block;\n\t\tcursor: pointer;\n\t\x7d\n\n\t#sidebar-active:checked ~ .links-container \x7b\n\t\tright: 0;\n\t\x7d\n\n\t#sidebar-active:checked ~ #overlay \x7b\n\t\theight: 100%;\n\t\twidth: 100%;\n\t\tposition: fixed;\n\t\ttop: 0;\n\t\tleft: 0;\n\t\tz-index: 9;\n\t\tbackground: rgba(0,0,0,0.5);\n\t\x7d\n\x7d\n\n/* View Transition API */\n@view-transition \x7b\n\tnavigation: auto;\n\x7d\n\n::view-transition-group(*) \x7b\n\tanimation-duration: 0.3s;\n\x7d\n\n/* Smooth fade transition for page content */\n@keyframes fade-in \x7b\n\tfrom \x7b\n\t\topacity: 0;\n\t\x7d\n\x7d\n\n@keyframes fade-out \x7b\n\tto \x7b\n\t\topacity: 0;\n\t\x7d\n\x7d\n\n::view-transition-old(root) \x7b\n\tanimation: 150ms cubic-bezier(0.4, 0, 1, 1) both fade-out;\n\x7d\n\n::view-transition-new(root) \x7b\n\tanimation: 300ms cubic-bezier(0, 0, 0.2, 1) both fade-in;\n\x7d\n"

/-- NavbarBuilder.RenderCSS (src/env.backend.go, navbar part). -/
def NavbarBuilder.RenderCSS (_ : NavbarBuilder) : String := navbarCSS

/-- The raw string literal returned by NavbarBuilder.RenderJS
(src/env.backend.go, navbar part, lines 323-408). -/
def navbarJS : String :=
  "// View Transition API for smooth page navigation\n(function() \x7b\n\t// Check if View Transition API is supported\n\tif (!document.startViewTransition) \x7b\n\t\treturn; // Fallback to normal navigation\n\t\x7d\n\n\t// Intercept navigation link clicks\n\tdocument.addEventListener(\x27click\x27, function(e) \x7b\n\t\tconst link = e.target.closest(\x27a\x27);\n\n\t\t// Only handle internal navigation links\n\t\tif (!link || !link.href || link.target === \x27_blank\x27) return;\n\n\t\tconst url = new URL(link.href);\n\n\t\t// Check if it\x27s a same-origin navigation\n\t\tif (url.origin !== location.origin) return;\n\n\t\t// Prevent default navigation\n\t\te.preventDefault();\n\n\t\t// Start view transition\n\t\tdocument.startViewTransition(async () => \x7b\n\t\t\t// Fetch the new page\n\t\t\tconst response = await fetch(url.href);\n\t\t\tconst html = await response.text();\n\n\t\t\t// Parse the HTML\n\t\t\tconst parser = new DOMParser();\n\t\t\tconst doc = parser.parseFromString(html, \x27text/html\x27);\n\n\t\t\t// Update the document title\n\t\t\tdocument.title = doc.title;\n\n\t\t\t// Replace the main content\n\t\t\tconst newMain = doc.querySelector(\x27main\x27);\n\t\t\tconst currentMain = document.querySelector(\x27main\x27);\n\n\t\t\tif (newMain && currentMain) \x7b\n\t\t\t\tcurrentMain.replaceWith(newMain);\n\t\t\t\x7d else \x7b\n\t\t\t\t// Fallback: replace entire body content\n\t\t\t\tdocument.body.innerHTML = doc.body.innerHTML;\n\t\t\t\x7d\n\n\t\t\t// Update the URL\n\t\t\thistory.pushState(\x7b\x7d, \x27\x27, url.href);\n\n\t\t\t// Re-attach event listeners after DOM update\n\t\t\tinitializeEventListeners();\n\t\t\x7d);\n\t\x7d);\n\n\t// Handle browser back/forward buttons\n\twindow.addEventListener(\x27popstate\x27, function() \x7b\n\t\tdocument.startViewTransition(async () => \x7b\n\t\t\tconst response = await fetch(location.href);\n\t\t\tconst html = await response.text();\n\t\t\tconst parser = new DOMParser();\n\t\t\tconst doc = parser.parseFromString(html, \x27text/html\x27);\n\n\t\t\tdocument.title = doc.title;\n\n\t\t\tconst newMain = doc.querySelector(\x27main\x27);\n\t\t\tconst currentMain = document.querySelector(\x27main\x27);\n\n\t\t\tif (newMain && currentMain) \x7b\n\t\t\t\tcurrentMain.replaceWith(newMain);\n\t\t\t\x7d else \x7b\n\t\t\t\tdocument.body.innerHTML = doc.body.innerHTML;\n\t\t\t\x7d\n\n\t\t\tinitializeEventListeners();\n\t\t\x7d);\n\t\x7d);\n\n\t// Function to reinitialize event listeners after DOM updates\n\tfunction initializeEventListeners() \x7b\n\t\t// Re-attach any component-specific event listeners here\n\t\t// This ensures interactive elements work after page transitions\n\t\x7d\n\x7d)();\n"

/-- NavbarBuilder.RenderJS (src/env.backend.go, navbar part). -/
def NavbarBuilder.RenderJS (_ : NavbarBuilder) : String := navbarJS

/-- BuildNav (src/gosite.go, lines 53-59): registers the navbar styling and
behavior in the site registries, then renders the navbar markup.  In Go the
builder holds a pointer to the one site, so each call observes the state
left by the previous one. -/
def Site.BuildNav (s : Site) : String × Site :=
  let s1 := s.AddCSS (NavbarBuilder.RenderCSS { site := s })
  let s2 := s1.AddJS (NavbarBuilder.RenderJS { site := s1 })
  (NavbarBuilder.Render { site := s2 }, s2)

/-- Page.RenderHTML (src/page.go, lines 35-73): fixed document preamble,
escaped title, trusted head fragments, navigation markup when the owning
site has more than one page (mutating the registries through BuildNav),
each section inside the main wrapper, trailing script include. -/
def Page.RenderHTML (s : Site) (p : Page) : String × Site :=
  let nr : String × Site := if s.PageCount > 1 then s.BuildNav else ("", s)
  ("<!DOCTYPE html>\n<html lang=\"es\">\n<head>\n  <meta charset=\"UTF-8\">\n  <meta name=\"viewport\" content=\"width=device-width, initial-scale-1.0\">\n  <title>"
      ++ EscapeHTML p.title
      ++ "</title>\n  <link rel=\"stylesheet\" href=\"style.css\">\n"
      ++ strConcat (p.head.map fun h => "  " ++ h ++ "\n")
      ++ "</head>\n<body>\n"
      ++ nr.1
      ++ "  <main class=\"content\">\n"
      ++ strConcat (p.sections.map SectionBuilder.Render)
      ++ "  </main>\n  <script src=\"script.js\"></script>\n</body>\n</html>\n",
    nr.2)

/-- Pieces of the template of generateBaseCSS (src/env.backend.go, lines
82-97), split at the `%s` verbs of the tinystring `Fmt` call. -/
def baseTpl0 : String := ":root \x7b\n\t--color-primary: "

/-- Template piece between the first and second `%s`. -/
def baseTpl1 : String := ";\n\t--color-secondary: "

/-- Template piece between the second and third `%s`. -/
def baseTpl2 : String := ";\n\t--color-text: "

/-- Template piece between the third and fourth `%s`. -/
def baseTpl3 : String := ";\n\t--color-background: "

/-- Template piece between the fourth and fifth `%s`. -/
def baseTpl4 : String := ";\n\t--color-border: "

/-- Template piece between the fifth and sixth `%s`. -/
def baseTpl5 : String := ";\n\t--color-heading: "

/-- Template piece between the sixth and seventh `%s`. -/
def baseTpl6 : String := ";\n\t--color-card-bg: "

/-- Template piece after the last `%s`. -/
def baseTpl7 : String := ";\n\x7d\n*, *::before, *::after \x7b box-sizing: border-box; margin: 0; padding: 0; \x7d\nbody \x7b font-family: -apple-system, BlinkMacSystemFont, \x27Segoe UI\x27, Roboto, sans-serif; background: var(--color-background); color: var(--color-text); line-height: 1.6; \x7d\nsection \x7b padding: 2rem; max-width: 1200px; margin: 0 auto; \x7d\nh1 \x7b color: var(--color-heading); font-size: 2.5rem; margin-bottom: 1.5rem; text-align: center; \x7d\nh2 \x7b color: var(--color-heading); font-size: 2rem; margin-bottom: 1rem; \x7d\n.card-container \x7b display: grid; grid-template-columns: repeat(auto-fit, minmax(300px, 1fr)); gap: 1.5rem; margin-top: 2rem; \x7d\n"

/-- generateBaseCSS (src/env.backend.go, lines 80-99): the template with
the scheme colors substituted for the `%s` verbs in order (Primary,
Secondary, Text, Background, Border, then Primary again for the heading
color and Background again for the card background). -/
def Site.generateBaseCSS (s : Site) : String :=
  let cs := s.Cfg.Scheme.getD DefaultColorScheme
  baseTpl0 ++ cs.Primary ++ baseTpl1 ++ cs.Secondary ++ baseTpl2 ++ cs.Text
    ++ baseTpl3 ++ cs.Background ++ baseTpl4 ++ cs.Border ++ baseTpl5 ++ cs.Primary
    ++ baseTpl6 ++ cs.Background ++ baseTpl7

/-- Modelled from the spec: tinystring `PathJoin` (not under src/) joins
the opaque output-location token with the artifact name. -/
def pathJoin (dir name : String) : String := dir ++ "/" ++ name

/-- The injected sink `Config.WriteFile`: `none` is a successful write,
`some e` a failure with message `e`. -/
def Sink : Type := String → String → Option String

/-- Content of the shared style artifact (the buffer filled by
writeCSSFile, src/env.backend.go, lines 106-111): the generated base CSS,
then every stored block in order, each followed by a newline. -/
def Site.cssFileContent (s : Site) : String :=
  s.generateBaseCSS ++ strConcat (s.cssBlocks.map fun b => b.Content ++ "\n")

/-- Content of the shared behavior artifact (the buffer filled by
writeJSFile, src/env.backend.go, lines 121-125): every stored block in
order, each followed by a newline. -/
def Site.jsFileContent (s : Site) : String :=
  strConcat (s.jsBlocks.map fun b => b.Content ++ "\n")

/-- writeCSSFile (src/env.backend.go, lines 102-114): nothing is written
when the CSS registry is empty; otherwise one write of the combined CSS to
`style.css` under the output directory.  Returns the writes handed to the
sink together with the sink result. -/
def Site.writeCSSFile (s : Site) (sink : Sink) :
    List (String × String) × Option String :=
  if s.cssBlocks = [] then ([], none)
  else
    let w : String × String := (pathJoin s.Cfg.OutputDir "style.css", s.cssFileContent)
    ([w], sink w.1 w.2)

/-- writeJSFile (src/env.backend.go, lines 117-128): nothing is written
when the JS registry is empty; otherwise one write of the combined JS to
`script.js` under the output directory. -/
def Site.writeJSFile (s : Site) (sink : Sink) :
    List (String × String) × Option String :=
  if s.jsBlocks = [] then ([], none)
  else
    let w : String × String := (pathJoin s.Cfg.OutputDir "script.js", s.jsFileContent)
    ([w], sink w.1 w.2)

/-- The page loop of Generate (src/env.backend.go, lines 61-68): render
each page against the current site state, hand the result to the sink, and
return the first sink failure immediately.  Returns the writes handed to
the sink, the site state after the renders performed, and the error. -/
def generateLoop (sink : Sink) (dir : String) :
    Site → List Page → List (String × String) × Site × Option String
  | s, [] => ([], s, none)
  | s, p :: ps =>
    let r := Page.RenderHTML s p
    let w : String × String := (pathJoin dir p.filename, r.1)
    match sink w.1 w.2 with
    | some e => ([w], r.2, some e)
    | none =>
      let rest := generateLoop sink dir r.2 ps
      (w :: rest.1, rest.2.1, rest.2.2)

/-- Generate (src/env.backend.go, lines 60-77): write every page, then the
shared style artifact, then the shared behavior artifact, aborting at the
first sink failure.  Returns the writes handed to the sink, the final site
state, and the first failure if any. -/
def Site.Generate (s : Site) (sink : Sink) :
    List (String × String) × Site × Option String :=
  let rp := generateLoop sink s.Cfg.OutputDir s s.pages
  match rp.2.2 with
  | some e => (rp.1, rp.2.1, some e)
  | none =>
    let s1 := rp.2.1
    let rc := s1.writeCSSFile sink
    match rc.2 with
    | some e => (rp.1 ++ rc.1, s1, some e)
    | none =>
      let rj := s1.writeJSFile sink
      (rp.1 ++ rc.1 ++ rj.1, s1, rj.2)

/-- Contents of the CSS registry, in stored order. -/
def cssContents (s : Site) : List String := s.cssBlocks.map AssetBlock.Content

/-- Contents of the JS registry, in stored order. -/
def jsContents (s : Site) : List String := s.jsBlocks.map AssetBlock.Content

/-- The site-state effect of one BuildNav call: the navbar styling and
behavior registered through the deduplicating registries. -/
def addNav (s : Site) : Site := (s.AddCSS navbarCSS).AddJS navbarJS

/-- The navbar markup as a function of the page list alone. -/
def navMarkup (ps : List Page) : String :=
  navbarHeader ++ strConcat (navLinkList 0 ps) ++ navbarFooter

/-- The document markup of a page as a pure function of the owning site's
page list and the page's own fields. -/
def pageMarkup (ps : List Page) (p : Page) : String :=
  "<!DOCTYPE html>\n<html lang=\"es\">\n<head>\n  <meta charset=\"UTF-8\">\n  <meta name=\"viewport\" content=\"width=device-width, initial-scale-1.0\">\n  <title>"
    ++ EscapeHTML p.title
    ++ "</title>\n  <link rel=\"stylesheet\" href=\"style.css\">\n"
    ++ strConcat (p.head.map fun h => "  " ++ h ++ "\n")
    ++ "</head>\n<body>\n"
    ++ (if 1 < ps.length then navMarkup ps else "")
    ++ "  <main class=\"content\">\n"
    ++ strConcat (p.sections.map SectionBuilder.Render)
    ++ "  </main>\n  <script src=\"script.js\"></script>\n</body>\n</html>\n"

/-- The site state left behind by the page renders of one Generate run: the
navbar assets are registered by the first rendered page when the site has
more than one page, and nothing else changes. -/
def navState (s : Site) : Site := if 1 < s.pages.length then addNav s else s

/-- Pure runner for a list of writes: attempt each in order and stop at the
first failure; returns the trace of attempted writes and the first error. -/
def runWrites (sink : Sink) : List (String × String) → List (String × String) × Option String
  | [] => ([], none)
  | w :: ws =>
    match sink w.1 w.2 with
    | some e => ([w], some e)
    | none =>
      let r := runWrites sink ws
      (w :: r.1, r.2)

/-- Every write a fully successful Generate run hands to the sink, in
order: one per page, then the shared style artifact when the CSS registry
(after the renders) is non-empty, then the shared behavior artifact when
the JS registry is non-empty. -/
def plannedWrites (s : Site) : List (String × String) :=
  (s.pages.map fun p => (pathJoin s.Cfg.OutputDir p.filename, pageMarkup s.pages p))
    ++ (if (navState s).cssBlocks = [] then []
        else [(pathJoin s.Cfg.OutputDir "style.css", (navState s).cssFileContent)])
    ++ (if (navState s).jsBlocks = [] then []
        else [(pathJoin s.Cfg.OutputDir "script.js", (navState s).jsFileContent)])

/-- One registry-filling action: a direct Site.AddCSS or Site.AddJS call,
or a component insertion forwarded through SectionBuilder.Add. -/
inductive AddEvent where
  | directCSS (t : String)
  | directJS (t : String)
  | viaSection (c : Component)
deriving DecidableEq, Repr

/-- The registry effect of one action.  For a forwarded insertion the
section being built is irrelevant to the registries: SectionBuilder.Add
touches the site only through AddCSS/AddJS. -/
def applyEvent (s : Site) : AddEvent → Site
  | .directCSS t => s.AddCSS t
  | .directJS t => s.AddJS t
  | .viaSection c =>
    (SectionBuilder.Add { Title := "", ModuleID := "", content := [] } s c).2

/-- The registry state after a sequence of actions starting from a fresh
site. -/
def siteOf (cfg : Config) (evs : List AddEvent) : Site :=
  evs.foldl applyEvent (New cfg)

/-- The fixed document text RenderHTML emits before the escaped title. -/
def docTitlePre : String :=
  "<!DOCTYPE html>\n<html lang=\"es\">\n<head>\n  <meta charset=\"UTF-8\">\n  <meta name=\"viewport\" content=\"width=device-width, initial-scale-1.0\">\n  <title>"

/-- Everything a page document contains after the escaped title, as a
function of the owning page list and the page's head fragments and
sections; the page title does not occur in it. -/
def docAfterTitle (ps : List Page) (heads : List String) (secs : List SectionBuilder) : String :=
  "</title>\n  <link rel=\"stylesheet\" href=\"style.css\">\n"
    ++ strConcat (heads.map fun h => "  " ++ h ++ "\n")
    ++ "</head>\n<body>\n"
    ++ (if 1 < ps.length then navMarkup ps else "")
    ++ "  <main class=\"content\">\n"
    ++ strConcat (secs.map SectionBuilder.Render)
    ++ "  </main>\n  <script src=\"script.js\"></script>\n</body>\n</html>\n"

/-- The card container and closing markup a section render emits after the
optional heading. -/
def sectionTail (sb : SectionBuilder) : String :=
  "  <div class=\"card-container\">\n"
    ++ strConcat (sb.content.map fun c =>
        match c.html with
        | some h => "    " ++ h ++ "\n"
        | none => "")
    ++ "  </div>\n</section>\n"

/-- A concrete configuration for the concrete instances below. -/
def cfg0 : Config := { Title := "Clinic", OutputDir := "dist", Scheme := none }

/-- A sink that accepts every write. -/
def okSink : Sink := fun _ _ => none

/-- A sink that rejects every write. -/
def failSink : Sink := fun _ _ => some "boom"

/-- A concrete one-page site. -/
def site1 : Site := ((New cfg0).NewPage "Home" "index.html").1

/-- A concrete two-page site. -/
def site2 : Site :=
  (((New cfg0).NewPage "Home" "index.html").1.NewPage "Contact" "contact.html").1

/-- The concrete one-page site with one CSS and one JS block registered. -/
def siteCJ : Site := (site1.AddCSS ".x\x7bcolor:red\x7d").AddJS "f()"

/-- The concrete two-page site with the navbar assets already
registered. -/
def siteNav : Site := addNav site2

/-- Character lists of appended strings concatenate. -/
theorem data_append (a b : String) : (a ++ b).data = a.data ++ b.data := rfl

/-- String append is associative. -/
theorem strAppend_assoc (a b c : String) : a ++ b ++ c = a ++ (b ++ c) := by
  rcases a with ⟨xs⟩
  rcases b with ⟨ys⟩
  rcases c with ⟨zs⟩
  show String.mk (xs ++ ys ++ zs) = String.mk (xs ++ (ys ++ zs))
  rw [List.append_assoc]

@[simp]
theorem strConcat_nil : strConcat [] = "" := rfl

@[simp]
theorem strConcat_cons (x : String) (xs : List String) :
    strConcat (x :: xs) = x ++ strConcat xs := rfl

/-- No character produced by the escape of a single character is a raw
`<`, `>` or double quote. -/
theorem escapeChar_safe (c c' : Char) (h : c ∈ (escapeChar c').data) :
    c ≠ '<' ∧ c ≠ '>' ∧ c ≠ '\x22' := by
  unfold escapeChar at h
  split_ifs at h with h1 h2 h3 h4 h5
  · have e : ("&amp;" : String).data = ['&', 'a', 'm', 'p', ';'] := rfl
    rw [e] at h
    fin_cases h <;> exact ⟨by decide, by decide, by decide⟩
  · have e : ("&#39;" : String).data = ['&', '#', '3', '9', ';'] := rfl
    rw [e] at h
    fin_cases h <;> exact ⟨by decide, by decide, by decide⟩
  · have e : ("&lt;" : String).data = ['&', 'l', 't', ';'] := rfl
    rw [e] at h
    fin_cases h <;> exact ⟨by decide, by decide, by decide⟩
  · have e : ("&gt;" : String).data = ['&', 'g', 't', ';'] := rfl
    rw [e] at h
    fin_cases h <;> exact ⟨by decide, by decide, by decide⟩
  · have e : ("&#34;" : String).data = ['&', '#', '3', '4', ';'] := rfl
    rw [e] at h
    fin_cases h <;> exact ⟨by decide, by decide, by decide⟩
  · have e : (String.singleton c').data = [c'] := rfl
    rw [e] at h
    have hc : c = c' := by simpa using h
    subst hc
    exact ⟨h3, h4, h5⟩

/-- No character of an escaped character list is a raw `<`, `>` or double
quote. -/
theorem escapeList_safe (l : List Char) (c : Char) (h : c ∈ (escapeList l).data) :
    c ≠ '<' ∧ c ≠ '>' ∧ c ≠ '\x22' := by
  induction l with
  | nil =>
    have e : (escapeList []).data = [] := rfl
    rw [e] at h
    cases h
  | cons x xs ih =>
    rw [escapeList, data_append] at h
    rcases List.mem_append.1 h with h | h
    · exact escapeChar_safe c x h
    · exact ih h

/-- The linear scan of the Add operations succeeds exactly when the content
is already stored. -/
theorem any_content_eq (bs : List AssetBlock) (t : String) :
    (bs.any fun b => b.Content = t) = true ↔ t ∈ bs.map AssetBlock.Content := by
  simp [List.any_eq_true]

/-- Adding CSS that is already stored changes nothing. -/
theorem AddCSS_of_mem {s : Site} {t : String} (h : t ∈ cssContents s) :
    s.AddCSS t = s := by
  unfold Site.AddCSS
  split_ifs with h1 h2
  · rfl
  · rfl
  · exact absurd ((any_content_eq s.cssBlocks t).2 h) h2

/-- Adding non-empty CSS that is not yet stored appends one block at the
end. -/
theorem AddCSS_of_not_mem {s : Site} {t : String} (ht : t ≠ "") (h : t ∉ cssContents s) :
    s.AddCSS t = { s with cssBlocks := s.cssBlocks ++ [{ Content := t }] } := by
  unfold Site.AddCSS
  split_ifs with h1 h2
  · exact absurd h1 ht
  · exact absurd ((any_content_eq s.cssBlocks t).1 h2) h
  · rfl

/-- Adding JS that is already stored changes nothing. -/
theorem AddJS_of_mem {s : Site} {t : String} (h : t ∈ jsContents s) :
    s.AddJS t = s := by
  unfold Site.AddJS
  split_ifs with h1 h2
  · rfl
  · rfl
  · exact absurd ((any_content_eq s.jsBlocks t).2 h) h2

/-- Adding non-empty JS that is not yet stored appends one block at the
end. -/
theorem AddJS_of_not_mem {s : Site} {t : String} (ht : t ≠ "") (h : t ∉ jsContents s) :
    s.AddJS t = { s with jsBlocks := s.jsBlocks ++ [{ Content := t }] } := by
  unfold Site.AddJS
  split_ifs with h1 h2
  · exact absurd h1 ht
  · exact absurd ((any_content_eq s.jsBlocks t).1 h2) h
  · rfl

@[simp]
theorem AddCSS_pages (s : Site) (t : String) : (s.AddCSS t).pages = s.pages := by
  unfold Site.AddCSS
  split_ifs <;> rfl

@[simp]
theorem AddCSS_Cfg (s : Site) (t : String) : (s.AddCSS t).Cfg = s.Cfg := by
  unfold Site.AddCSS
  split_ifs <;> rfl

@[simp]
theorem AddCSS_jsBlocks (s : Site) (t : String) : (s.AddCSS t).jsBlocks = s.jsBlocks := by
  unfold Site.AddCSS
  split_ifs <;> rfl

@[simp]
theorem AddJS_pages (s : Site) (t : String) : (s.AddJS t).pages = s.pages := by
  unfold Site.AddJS
  split_ifs <;> rfl

@[simp]
theorem AddJS_Cfg (s : Site) (t : String) : (s.AddJS t).Cfg = s.Cfg := by
  unfold Site.AddJS
  split_ifs <;> rfl

@[simp]
theorem AddJS_cssBlocks (s : Site) (t : String) : (s.AddJS t).cssBlocks = s.cssBlocks := by
  unfold Site.AddJS
  split_ifs <;> rfl

@[simp]
theorem cssContents_AddJS (s : Site) (t : String) :
    cssContents (s.AddJS t) = cssContents s := by
  unfold cssContents
  rw [AddJS_cssBlocks]

@[simp]
theorem jsContents_AddCSS (s : Site) (t : String) :
    jsContents (s.AddCSS t) = jsContents s := by
  unfold jsContents
  rw [AddCSS_jsBlocks]

/-- After adding non-empty content it is stored. -/
theorem mem_cssContents_AddCSS (s : Site) {t : String} (ht : t ≠ "") :
    t ∈ cssContents (s.AddCSS t) := by
  by_cases h : t ∈ cssContents s
  · rw [AddCSS_of_mem h]
    exact h
  · rw [AddCSS_of_not_mem ht h]
    unfold cssContents
    simp

/-- After adding non-empty JS content it is stored. -/
theorem mem_jsContents_AddJS (s : Site) {t : String} (ht : t ≠ "") :
    t ∈ jsContents (s.AddJS t) := by
  by_cases h : t ∈ jsContents s
  · rw [AddJS_of_mem h]
    exact h
  · rw [AddJS_of_not_mem ht h]
    unfold jsContents
    simp

/-- An Add call never disturbs the blocks already stored: the old CSS list
is an initial segment of the new one. -/
theorem cssBlocks_prefix_AddCSS (s : Site) (t : String) :
    s.cssBlocks <+: (s.AddCSS t).cssBlocks := by
  unfold Site.AddCSS
  split_ifs
  · exact List.prefix_rfl
  · exact List.prefix_rfl
  · exact ⟨[{ Content := t }], rfl⟩

/-- An Add call never disturbs the blocks already stored: the old JS list
is an initial segment of the new one. -/
theorem jsBlocks_prefix_AddJS (s : Site) (t : String) :
    s.jsBlocks <+: (s.AddJS t).jsBlocks := by
  unfold Site.AddJS
  split_ifs
  · exact List.prefix_rfl
  · exact List.prefix_rfl
  · exact ⟨[{ Content := t }], rfl⟩

/-- AddCSS preserves the no-duplicates invariant of the CSS registry. -/
theorem nodup_cssContents_AddCSS {s : Site} (t : String) (h : (cssContents s).Nodup) :
    (cssContents (s.AddCSS t)).Nodup := by
  rcases eq_or_ne t "" with rfl | ht
  · unfold Site.AddCSS
    rw [if_pos rfl]
    exact h
  · by_cases hm : t ∈ cssContents s
    · rw [AddCSS_of_mem hm]
      exact h
    · rw [AddCSS_of_not_mem ht hm]
      unfold cssContents at *
      simp only [List.map_append]
      refine List.Nodup.append h (List.nodup_singleton _) ?_
      intro x hx hx'
      simp only [List.map_cons, List.map_nil, List.mem_singleton] at hx'
      subst hx'
      exact hm hx

/-- AddJS preserves the no-duplicates invariant of the JS registry. -/
theorem nodup_jsContents_AddJS {s : Site} (t : String) (h : (jsContents s).Nodup) :
    (jsContents (s.AddJS t)).Nodup := by
  rcases eq_or_ne t "" with rfl | ht
  · unfold Site.AddJS
    rw [if_pos rfl]
    exact h
  · by_cases hm : t ∈ jsContents s
    · rw [AddJS_of_mem hm]
      exact h
    · rw [AddJS_of_not_mem ht hm]
      unfold jsContents at *
      simp only [List.map_append]
      refine List.Nodup.append h (List.nodup_singleton _) ?_
      intro x hx hx'
      simp only [List.map_cons, List.map_nil, List.mem_singleton] at hx'
      subst hx'
      exact hm hx

/-- The site effect of a forwarded component insertion, by capability
case. -/
theorem sectionAdd_site (sec : SectionBuilder) (s : Site) (c : Component) :
    (sec.Add s c).2 = match c.css, c.js with
      | some u, some t => (s.AddCSS u).AddJS t
      | some u, none => s.AddCSS u
      | none, some t => s.AddJS t
      | none, none => s := by
  rcases c with ⟨ch, ccss, cjs⟩
  cases ccss <;> cases cjs <;> rfl

/-- Every registry-filling action preserves the no-duplicates invariant of
both registries. -/
theorem nodup_applyEvent {s : Site}
    (h : (cssContents s).Nodup ∧ (jsContents s).Nodup) (e : AddEvent) :
    (cssContents (applyEvent s e)).Nodup ∧ (jsContents (applyEvent s e)).Nodup := by
  cases e with
  | directCSS t =>
    exact ⟨nodup_cssContents_AddCSS t h.1, by
      rw [applyEvent, jsContents_AddCSS]
      exact h.2⟩
  | directJS t =>
    exact ⟨by
      rw [applyEvent, cssContents_AddJS]
      exact h.1, nodup_jsContents_AddJS t h.2⟩
  | viaSection c =>
    rw [applyEvent, sectionAdd_site]
    rcases c with ⟨ch, ccss, cjs⟩
    cases ccss <;> cases cjs <;>
      simp only [] <;>
      constructor
    · exact h.1
    · exact h.2
    · rw [cssContents_AddJS]
      exact h.1
    · exact nodup_jsContents_AddJS _ h.2
    · exact nodup_cssContents_AddCSS _ h.1
    · rw [jsContents_AddCSS]
      exact h.2
    · rw [cssContents_AddJS]
      exact nodup_cssContents_AddCSS _ h.1
    · exact nodup_jsContents_AddJS _ (by
        rw [jsContents_AddCSS]
        exact h.2)

/-- Every registry-filling action only ever appends to the CSS registry. -/
theorem cssBlocks_prefix_applyEvent (s : Site) (e : AddEvent) :
    s.cssBlocks <+: (applyEvent s e).cssBlocks := by
  cases e with
  | directCSS t => exact cssBlocks_prefix_AddCSS s t
  | directJS t =>
    rw [applyEvent, AddJS_cssBlocks]
  | viaSection c =>
    rw [applyEvent, sectionAdd_site]
    rcases c with ⟨ch, ccss, cjs⟩
    cases ccss <;> cases cjs <;> simp only []
    · exact List.prefix_rfl
    · rw [AddJS_cssBlocks]
    · exact cssBlocks_prefix_AddCSS s _
    · rw [AddJS_cssBlocks]
      exact cssBlocks_prefix_AddCSS s _

/-- Every registry-filling action only ever appends to the JS registry. -/
theorem jsBlocks_prefix_applyEvent (s : Site) (e : AddEvent) :
    s.jsBlocks <+: (applyEvent s e).jsBlocks := by
  cases e with
  | directCSS t =>
    rw [applyEvent, AddCSS_jsBlocks]
  | directJS t => exact jsBlocks_prefix_AddJS s t
  | viaSection c =>
    rw [applyEvent, sectionAdd_site]
    rcases c with ⟨ch, ccss, cjs⟩
    cases ccss <;> cases cjs <;> simp only []
    · exact List.prefix_rfl
    · exact jsBlocks_prefix_AddJS s _
    · rw [AddCSS_jsBlocks]
    · calc s.jsBlocks <+: (s.AddCSS _).jsBlocks := by rw [AddCSS_jsBlocks]
        _ <+: ((s.AddCSS _).AddJS _).jsBlocks := jsBlocks_prefix_AddJS _ _

/-- A sequence of actions only ever appends to the CSS registry. -/
theorem cssBlocks_prefix_foldl (evs : List AddEvent) (s : Site) :
    s.cssBlocks <+: (evs.foldl applyEvent s).cssBlocks := by
  induction evs generalizing s with
  | nil => exact List.prefix_rfl
  | cons e es ih =>
    rw [List.foldl_cons]
    exact (cssBlocks_prefix_applyEvent s e).trans (ih (applyEvent s e))

/-- A sequence of actions only ever appends to the JS registry. -/
theorem jsBlocks_prefix_foldl (evs : List AddEvent) (s : Site) :
    s.jsBlocks <+: (evs.foldl applyEvent s).jsBlocks := by
  induction evs generalizing s with
  | nil => exact List.prefix_rfl
  | cons e es ih =>
    rw [List.foldl_cons]
    exact (jsBlocks_prefix_applyEvent s e).trans (ih (applyEvent s e))

/-- Both registries of a site built by any action sequence from a fresh
site are duplicate-free. -/
theorem nodup_siteOf (cfg : Config) (evs : List AddEvent) :
    (cssContents (siteOf cfg evs)).Nodup ∧ (jsContents (siteOf cfg evs)).Nodup := by
  unfold siteOf
  have base : (cssContents (New cfg)).Nodup ∧ (jsContents (New cfg)).Nodup := by
    constructor <;> exact List.nodup_nil
  generalize New cfg = s at base ⊢
  induction evs generalizing s with
  | nil => exact base
  | cons e es ih =>
    rw [List.foldl_cons]
    exact ih _ (nodup_applyEvent base e)

/-- A prefix of a list maps to a prefix of the mapped list. -/
theorem map_prefix_of_prefix {α β : Type} (f : α → β) {l₁ l₂ : List α}
    (h : l₁ <+: l₂) : l₁.map f <+: l₂.map f := by
  obtain ⟨u, rfl⟩ := h
  exact ⟨u.map f, by rw [List.map_append]⟩

/-- C1: for every non-empty text `t`, after any sequence of registry-filling
calls — direct AddCSS/AddJS calls or component insertions forwarded through
SectionBuilder.Add — each registry holds at most one block whose content is
`t`; adding `t` when it is already stored leaves the site unchanged, and
otherwise appends one block at the end; and the stored blocks (hence the
position given to `t` at its first insertion) survive every later call
unchanged. -/
theorem c1_asset_dedup (cfg : Config) (evs evs' : List AddEvent) (t : String)
    (ht : t ≠ "") :
    (cssContents (siteOf cfg evs)).count t ≤ 1
    ∧ (siteOf cfg evs).AddCSS t =
        (if t ∈ cssContents (siteOf cfg evs) then siteOf cfg evs
         else { siteOf cfg evs with
                  cssBlocks := (siteOf cfg evs).cssBlocks ++ [{ Content := t }] })
    ∧ cssContents (siteOf cfg evs) <+: cssContents (siteOf cfg (evs ++ evs'))
    ∧ (jsContents (siteOf cfg evs)).count t ≤ 1
    ∧ (siteOf cfg evs).AddJS t =
        (if t ∈ jsContents (siteOf cfg evs) then siteOf cfg evs
         else { siteOf cfg evs with
                  jsBlocks := (siteOf cfg evs).jsBlocks ++ [{ Content := t }] })
    ∧ jsContents (siteOf cfg evs) <+: jsContents (siteOf cfg (evs ++ evs')) := by
  have hnd := nodup_siteOf cfg evs
  have happ : siteOf cfg (evs ++ evs') = evs'.foldl applyEvent (siteOf cfg evs) := by
    unfold siteOf
    rw [List.foldl_append]
  refine ⟨List.nodup_iff_count_le_one.1 hnd.1 t, ?_, ?_, List.nodup_iff_count_le_one.1 hnd.2 t, ?_, ?_⟩
  · by_cases hm : t ∈ cssContents (siteOf cfg evs)
    · rw [if_pos hm]
      exact AddCSS_of_mem hm
    · rw [if_neg hm]
      exact AddCSS_of_not_mem ht hm
  · rw [happ]
    exact map_prefix_of_prefix _ (cssBlocks_prefix_foldl evs' (siteOf cfg evs))
  · by_cases hm : t ∈ jsContents (siteOf cfg evs)
    · rw [if_pos hm]
      exact AddJS_of_mem hm
    · rw [if_neg hm]
      exact AddJS_of_not_mem ht hm
  · rw [happ]
    exact map_prefix_of_prefix _ (jsBlocks_prefix_foldl evs' (siteOf cfg evs))

/-- Witness for C1 at a concrete action sequence: the text `.x` added
directly, re-added through a component insertion and re-added again later
stays a single block at its first position. -/
theorem c1_asset_dedup_witness :
    ("" : String) ≠ ".x" ∧
    ((cssContents (siteOf { Title := "T", OutputDir := "o", Scheme := none }
        [AddEvent.directCSS ".x",
         AddEvent.viaSection { html := some "<p>Hi</p>", css := some ".x", js := some "f()" }])).count ".x" ≤ 1
    ∧ (siteOf { Title := "T", OutputDir := "o", Scheme := none }
        [AddEvent.directCSS ".x",
         AddEvent.viaSection { html := some "<p>Hi</p>", css := some ".x", js := some "f()" }]).AddCSS ".x" =
        (if ".x" ∈ cssContents (siteOf { Title := "T", OutputDir := "o", Scheme := none }
            [AddEvent.directCSS ".x",
             AddEvent.viaSection { html := some "<p>Hi</p>", css := some ".x", js := some "f()" }])
         then siteOf { Title := "T", OutputDir := "o", Scheme := none }
            [AddEvent.directCSS ".x",
             AddEvent.viaSection { html := some "<p>Hi</p>", css := some ".x", js := some "f()" }]
         else { siteOf { Title := "T", OutputDir := "o", Scheme := none }
            [AddEvent.directCSS ".x",
             AddEvent.viaSection { html := some "<p>Hi</p>", css := some ".x", js := some "f()" }] with
                  cssBlocks := (siteOf { Title := "T", OutputDir := "o", Scheme := none }
            [AddEvent.directCSS ".x",
             AddEvent.viaSection { html := some "<p>Hi</p>", css := some ".x", js := some "f()" }]).cssBlocks ++ [{ Content := ".x" }] })
    ∧ cssContents (siteOf { Title := "T", OutputDir := "o", Scheme := none }
        [AddEvent.directCSS ".x",
         AddEvent.viaSection { html := some "<p>Hi</p>", css := some ".x", js := some "f()" }]) <+:
      cssContents (siteOf { Title := "T", OutputDir := "o", Scheme := none }
        ([AddEvent.directCSS ".x",
          AddEvent.viaSection { html := some "<p>Hi</p>", css := some ".x", js := some "f()" }] ++
         [AddEvent.directCSS ".y", AddEvent.directCSS ".x"]))
    ∧ (jsContents (siteOf { Title := "T", OutputDir := "o", Scheme := none }
        [AddEvent.directCSS ".x",
         AddEvent.viaSection { html := some "<p>Hi</p>", css := some ".x", js := some "f()" }])).count ".x" ≤ 1
    ∧ (siteOf { Title := "T", OutputDir := "o", Scheme := none }
        [AddEvent.directCSS ".x",
         AddEvent.viaSection { html := some "<p>Hi</p>", css := some ".x", js := some "f()" }]).AddJS ".x" =
        (if ".x" ∈ jsContents (siteOf { Title := "T", OutputDir := "o", Scheme := none }
            [AddEvent.directCSS ".x",
             AddEvent.viaSection { html := some "<p>Hi</p>", css := some ".x", js := some "f()" }])
         then siteOf { Title := "T", OutputDir := "o", Scheme := none }
            [AddEvent.directCSS ".x",
             AddEvent.viaSection { html := some "<p>Hi</p>", css := some ".x", js := some "f()" }]
         else { siteOf { Title := "T", OutputDir := "o", Scheme := none }
            [AddEvent.directCSS ".x",
             AddEvent.viaSection { html := some "<p>Hi</p>", css := some ".x", js := some "f()" }] with
                  jsBlocks := (siteOf { Title := "T", OutputDir := "o", Scheme := none }
            [AddEvent.directCSS ".x",
             AddEvent.viaSection { html := some "<p>Hi</p>", css := some ".x", js := some "f()" }]).jsBlocks ++ [{ Content := ".x" }] })
    ∧ jsContents (siteOf { Title := "T", OutputDir := "o", Scheme := none }
        [AddEvent.directCSS ".x",
         AddEvent.viaSection { html := some "<p>Hi</p>", css := some ".x", js := some "f()" }]) <+:
      jsContents (siteOf { Title := "T", OutputDir := "o", Scheme := none }
        ([AddEvent.directCSS ".x",
          AddEvent.viaSection { html := some "<p>Hi</p>", css := some ".x", js := some "f()" }] ++
         [AddEvent.directCSS ".y", AddEvent.directCSS ".x"]))) :=
  ⟨by decide,
   c1_asset_dedup { Title := "T", OutputDir := "o", Scheme := none }
     [AddEvent.directCSS ".x",
      AddEvent.viaSection { html := some "<p>Hi</p>", css := some ".x", js := some "f()" }]
     [AddEvent.directCSS ".y", AddEvent.directCSS ".x"] ".x" (by decide)⟩

/-- The navbar link loop emits one link per page. -/
theorem navLinkList_length (i : Nat) (ps : List Page) :
    (navLinkList i ps).length = ps.length := by
  induction ps generalizing i with
  | nil => rfl
  | cons p qs ih =>
    rw [navLinkList, List.length_cons, List.length_cons, ih]

/-- The link at position `i` of the navbar link loop started at index `k`
belongs to the page at position `i`. -/
theorem navLinkList_get (k : Nat) (ps : List Page) (i : Nat) (p : Page)
    (h : ps[i]? = some p) : (navLinkList k ps)[i]? = some (navLink (k + i) p) := by
  induction ps generalizing k i with
  | nil => simp at h
  | cons q qs ih =>
    cases i with
    | zero =>
      rw [List.getElem?_cons_zero, Option.some_inj] at h
      subst h
      rw [navLinkList, List.getElem?_cons_zero, Nat.add_zero]
    | succ n =>
      rw [List.getElem?_cons_succ] at h
      rw [navLinkList, List.getElem?_cons_succ]
      have e : k + (n + 1) = (k + 1) + n := by omega
      rw [e]
      exact ih (k + 1) n h

/-- The navbar styling block is not the empty string. -/
theorem navbarCSS_ne : navbarCSS ≠ "" := by decide

/-- The navbar behavior block is not the empty string. -/
theorem navbarJS_ne : navbarJS ≠ "" := by decide

@[simp]
theorem addNav_pages (s : Site) : (addNav s).pages = s.pages := by
  unfold addNav
  rw [AddJS_pages, AddCSS_pages]

@[simp]
theorem addNav_Cfg (s : Site) : (addNav s).Cfg = s.Cfg := by
  unfold addNav
  rw [AddJS_Cfg, AddCSS_Cfg]

/-- Registering the navbar assets twice is the same as registering them
once: the second registration is deduplicated away. -/
theorem addNav_addNav (s : Site) : addNav (addNav s) = addNav s := by
  unfold addNav
  have h1 : navbarCSS ∈ cssContents ((s.AddCSS navbarCSS).AddJS navbarJS) := by
    rw [cssContents_AddJS]
    exact mem_cssContents_AddCSS s navbarCSS_ne
  rw [AddCSS_of_mem h1]
  exact AddJS_of_mem (mem_jsContents_AddJS _ navbarJS_ne)

@[simp]
theorem navState_pages (s : Site) : (navState s).pages = s.pages := by
  unfold navState
  split_ifs
  · rw [addNav_pages]
  · rfl

@[simp]
theorem navState_Cfg (s : Site) : (navState s).Cfg = s.Cfg := by
  unfold navState
  split_ifs
  · rw [addNav_Cfg]
  · rfl

/-- The render-phase state effect is idempotent. -/
theorem navState_navState (s : Site) : navState (navState s) = navState s := by
  by_cases h : 1 < s.pages.length
  · have e1 : navState s = addNav s := if_pos h
    rw [e1]
    unfold navState
    rw [addNav_pages, if_pos h, addNav_addNav]
  · have e1 : navState s = s := if_neg h
    rw [e1, e1]

/-- BuildNav in closed form: the markup determined by the page list alone,
paired with the site extended by the navbar assets. -/
theorem BuildNav_eq (s : Site) : s.BuildNav = (navMarkup s.pages, addNav s) := by
  unfold Site.BuildNav NavbarBuilder.Render NavbarBuilder.RenderCSS NavbarBuilder.RenderJS
    navMarkup addNav
  simp only [AddJS_pages, AddCSS_pages]

/-- Page.RenderHTML in closed form: the markup is a pure function of the
owning page list and the page, and the state effect is exactly the
navbar-asset registration when the site has more than one page. -/
theorem RenderHTML_eq (s : Site) (p : Page) :
    Page.RenderHTML s p = (pageMarkup s.pages p, navState s) := by
  unfold Page.RenderHTML pageMarkup navState Site.PageCount
  by_cases h : 1 < s.pages.length
  · simp only [gt_iff_lt, if_pos h, BuildNav_eq]
  · simp only [gt_iff_lt, if_neg h]

/-- A run with no failure attempts every write in order. -/
theorem runWrites_of_success (sink : Sink) (l : List (String × String))
    (h : (runWrites sink l).2 = none) : (runWrites sink l).1 = l := by
  induction l with
  | nil => rfl
  | cons w ws ih =>
    rw [runWrites] at h ⊢
    cases hs : sink w.1 w.2 with
    | some e =>
      rw [hs] at h
      simp at h
    | none =>
      rw [hs] at h
      show w :: (runWrites sink ws).1 = w :: ws
      rw [ih h]

/-- Splitting a run at a list concatenation: the second part runs exactly
when the first fully succeeds. -/
theorem runWrites_append (sink : Sink) (a b : List (String × String)) :
    runWrites sink (a ++ b) =
      (if (runWrites sink a).2 = none
       then ((runWrites sink a).1 ++ (runWrites sink b).1, (runWrites sink b).2)
       else runWrites sink a) := by
  induction a with
  | nil => simp [runWrites]
  | cons w ws ih =>
    rw [List.cons_append, runWrites, runWrites]
    cases hs : sink w.1 w.2 with
    | some e => simp
    | none =>
      show (w :: (runWrites sink (ws ++ b)).1, (runWrites sink (ws ++ b)).2) = _
      rw [ih]
      by_cases h2 : (runWrites sink ws).2 = none
      · rw [if_pos h2, if_pos (by simpa using h2)]
        simp
      · rw [if_neg h2, if_neg (by simpa using h2)]

/-- The site left by the page loop is the navbar-registration state in
every case: with no pages the conditional collapses to the unchanged
site. -/
theorem loopSite_eq_navState (s : Site) :
    (if s.pages = [] then s else navState s) = navState s := by
  split_ifs with h
  · unfold navState
    rw [h]
    simp
  · rfl

/-- The page loop of Generate in closed form: the trace and error of the
pure write runner on the page artifacts, and the navbar-registration state
effect. -/
theorem generateLoop_spec (sink : Sink) (dir : String) (ps : List Page) (s : Site) :
    generateLoop sink dir s ps =
      ((runWrites sink (ps.map fun p => (pathJoin dir p.filename, pageMarkup s.pages p))).1,
       (if ps = [] then s else navState s),
       (runWrites sink (ps.map fun p => (pathJoin dir p.filename, pageMarkup s.pages p))).2) := by
  induction ps generalizing s with
  | nil => rfl
  | cons p qs ih =>
    rw [generateLoop, RenderHTML_eq, List.map_cons, runWrites]
    cases hs : sink (pathJoin dir p.filename) (pageMarkup s.pages p) with
    | some e => simp
    | none =>
      show ((pathJoin dir p.filename, pageMarkup s.pages p) ::
              (generateLoop sink dir (navState s) qs).1,
            (generateLoop sink dir (navState s) qs).2.1,
            (generateLoop sink dir (navState s) qs).2.2) = _
      rw [ih (navState s), navState_pages, navState_navState, ite_self]
      simp

/-- writeCSSFile as a pure write run over its conditional artifact
list. -/
theorem writeCSSFile_eq (s1 : Site) (sink : Sink) :
    s1.writeCSSFile sink =
      ((runWrites sink (if s1.cssBlocks = [] then []
          else [(pathJoin s1.Cfg.OutputDir "style.css", s1.cssFileContent)])).1,
       (runWrites sink (if s1.cssBlocks = [] then []
          else [(pathJoin s1.Cfg.OutputDir "style.css", s1.cssFileContent)])).2) := by
  unfold Site.writeCSSFile
  split_ifs with h
  · rfl
  · rw [runWrites]
    cases hs : sink (pathJoin s1.Cfg.OutputDir "style.css") s1.cssFileContent with
    | some e =>
      show ([(pathJoin s1.Cfg.OutputDir "style.css", s1.cssFileContent)],
            sink (pathJoin s1.Cfg.OutputDir "style.css") s1.cssFileContent) = _
      rw [hs]
    | none =>
      show ([(pathJoin s1.Cfg.OutputDir "style.css", s1.cssFileContent)],
            sink (pathJoin s1.Cfg.OutputDir "style.css") s1.cssFileContent) = _
      rw [hs]
      rfl

/-- writeJSFile as a pure write run over its conditional artifact list. -/
theorem writeJSFile_eq (s1 : Site) (sink : Sink) :
    s1.writeJSFile sink =
      ((runWrites sink (if s1.jsBlocks = [] then []
          else [(pathJoin s1.Cfg.OutputDir "script.js", s1.jsFileContent)])).1,
       (runWrites sink (if s1.jsBlocks = [] then []
          else [(pathJoin s1.Cfg.OutputDir "script.js", s1.jsFileContent)])).2) := by
  unfold Site.writeJSFile
  split_ifs with h
  · rfl
  · rw [runWrites]
    cases hs : sink (pathJoin s1.Cfg.OutputDir "script.js") s1.jsFileContent with
    | some e =>
      show ([(pathJoin s1.Cfg.OutputDir "script.js", s1.jsFileContent)],
            sink (pathJoin s1.Cfg.OutputDir "script.js") s1.jsFileContent) = _
      rw [hs]
    | none =>
      show ([(pathJoin s1.Cfg.OutputDir "script.js", s1.jsFileContent)],
            sink (pathJoin s1.Cfg.OutputDir "script.js") s1.jsFileContent) = _
      rw [hs]
      rfl

/-- Generate in closed form: the trace and error of the pure write runner
over the planned artifact list, together with the navbar-registration state
effect. -/
theorem generate_spec (s : Site) (sink : Sink) :
    s.Generate sink =
      ((runWrites sink (plannedWrites s)).1, navState s,
       (runWrites sink (plannedWrites s)).2) := by
  unfold Site.Generate plannedWrites
  rw [generateLoop_spec, loopSite_eq_navState]
  rw [runWrites_append, runWrites_append]
  simp only [writeCSSFile_eq, writeJSFile_eq, navState_Cfg]
  cases hp : (runWrites sink (s.pages.map fun p =>
      (pathJoin s.Cfg.OutputDir p.filename, pageMarkup s.pages p))).2 with
  | some e => simp [hp]
  | none =>
    cases hc : (runWrites sink (if (navState s).cssBlocks = [] then []
        else [(pathJoin s.Cfg.OutputDir "style.css", (navState s).cssFileContent)])).2 with
    | some e => simp [hp, hc]
    | none => simp [hp, hc, List.append_assoc]

/-- The planned artifact list is already stable after one run. -/
theorem plannedWrites_navState (s : Site) :
    plannedWrites (navState s) = plannedWrites s := by
  unfold plannedWrites
  rw [navState_pages, navState_Cfg, navState_navState]

/-- C3: with a deterministic sink, a second Generate on the site left by a
first Generate hands the same writes to the sink in the same order with
byte-identical contents, reaches the same outcome, and leaves the site
fixed; registry rendering, a pure function of the site in this embedding,
is unchanged in particular. -/
theorem c3_generate_deterministic (s : Site) (sink : Sink) :
    ((s.Generate sink).2.1.Generate sink).1 = (s.Generate sink).1
    ∧ ((s.Generate sink).2.1.Generate sink).2.1 = (s.Generate sink).2.1
    ∧ ((s.Generate sink).2.1.Generate sink).2.2 = (s.Generate sink).2.2 := by
  simp [generate_spec, plannedWrites_navState, navState_navState]

/-- C6 counterexample: a fully successful Generate on the concrete fresh
site hands no artifact at all to the sink — in particular neither a shared
style artifact nor a shared behavior artifact is emitted, against the
claim that every successful Generate emits exactly one of each. -/
theorem c6_counterexample :
    ((New cfg0).Generate okSink).2.2 = none ∧ ((New cfg0).Generate okSink).1 = [] :=
  ⟨rfl, rfl⟩

/-- C6 amended: a successful Generate hands to the sink one artifact per
registered page in order, with the page's RenderHTML markup as content;
then one shared style artifact exactly when the CSS registry left by the
renders is non-empty, whose content is the generated base CSS followed by
every stored block each followed by a newline; then one shared behavior
artifact exactly when the JS registry is non-empty, whose content is every
stored block each followed by a newline. -/
theorem c6_artifacts (s : Site) (sink : Sink) (h : (s.Generate sink).2.2 = none) :
    (s.Generate sink).1 =
      (s.pages.map fun p => (pathJoin s.Cfg.OutputDir p.filename, (Page.RenderHTML s p).1))
      ++ (if (navState s).cssBlocks = [] then []
          else [(pathJoin s.Cfg.OutputDir "style.css",
                 (navState s).generateBaseCSS
                   ++ strConcat ((navState s).cssBlocks.map fun b => b.Content ++ "\n"))])
      ++ (if (navState s).jsBlocks = [] then []
          else [(pathJoin s.Cfg.OutputDir "script.js",
                 strConcat ((navState s).jsBlocks.map fun b => b.Content ++ "\n"))]) := by
  rw [generate_spec] at h
  have h' : (runWrites sink (plannedWrites s)).2 = none := h
  rw [generate_spec]
  show (runWrites sink (plannedWrites s)).1 = _
  rw [runWrites_of_success sink (plannedWrites s) h']
  unfold plannedWrites Site.cssFileContent Site.jsFileContent
  simp only [RenderHTML_eq]

/-- Witness for C6 amended on the concrete one-page site with one CSS and
one JS block: the successful run writes the page, then the style artifact
prefixed by the base CSS, then the behavior artifact. -/
theorem c6_artifacts_witness :
    (siteCJ.Generate okSink).2.2 = none ∧
    (siteCJ.Generate okSink).1 =
      (siteCJ.pages.map fun p =>
        (pathJoin siteCJ.Cfg.OutputDir p.filename, (Page.RenderHTML siteCJ p).1))
      ++ (if (navState siteCJ).cssBlocks = [] then []
          else [(pathJoin siteCJ.Cfg.OutputDir "style.css",
                 (navState siteCJ).generateBaseCSS
                   ++ strConcat ((navState siteCJ).cssBlocks.map fun b => b.Content ++ "\n"))])
      ++ (if (navState siteCJ).jsBlocks = [] then []
          else [(pathJoin siteCJ.Cfg.OutputDir "script.js",
                 strConcat ((navState siteCJ).jsBlocks.map fun b => b.Content ++ "\n"))]) :=
  ⟨rfl, c6_artifacts siteCJ okSink rfl⟩

/-- A failed run attempts exactly the writes up to and including the first
failing one: the trace is that prefix, the write at the failure position
fails with the reported error, and every earlier write succeeded. -/
theorem runWrites_of_failure (sink : Sink) (l : List (String × String)) (e : String)
    (h : (runWrites sink l).2 = some e) :
    ∃ k w, l[k]? = some w
      ∧ (runWrites sink l).1 = l.take (k + 1)
      ∧ sink w.1 w.2 = some e
      ∧ ∀ j v, j < k → l[j]? = some v → sink v.1 v.2 = none := by
  induction l with
  | nil => simp [runWrites] at h
  | cons w ws ih =>
    rw [runWrites] at h ⊢
    cases hs : sink w.1 w.2 with
    | some e' =>
      rw [hs] at h
      have he : e' = e := by simpa using h
      subst he
      refine ⟨0, w, by simp, ?_, hs, ?_⟩
      · simp
      · intro j v hj hv
        omega
    | none =>
      rw [hs] at h
      have h2 : (runWrites sink ws).2 = some e := h
      obtain ⟨k, v, hk, htr, hsv, hprev⟩ := ih h2
      refine ⟨k + 1, v, by simpa using hk, ?_, hsv, ?_⟩
      · show w :: (runWrites sink ws).1 = (w :: ws).take (k + 1 + 1)
        rw [List.take_succ_cons, htr]
      · intro j u hj hu
        cases j with
        | zero =>
          rw [List.getElem?_cons_zero, Option.some_inj] at hu
          subst hu
          exact hs
        | succ n =>
          rw [List.getElem?_cons_succ] at hu
          exact hprev n u (by omega) hu

/-- C7: when Generate fails, the failure is the first sink failure, the
writes handed to the sink are exactly the planned artifacts up to and
including the failing one — none after it, none twice — and all artifacts
written before it stay written: every earlier planned write was handed to
the sink and succeeded, and nothing retracts it. -/
theorem c7_failfast (s : Site) (sink : Sink) (e : String)
    (h : (s.Generate sink).2.2 = some e) :
    ∃ k w, (plannedWrites s)[k]? = some w
      ∧ (s.Generate sink).1 = (plannedWrites s).take (k + 1)
      ∧ sink w.1 w.2 = some e
      ∧ ∀ j v, j < k → (plannedWrites s)[j]? = some v → sink v.1 v.2 = none := by
  rw [generate_spec] at h
  have h' : (runWrites sink (plannedWrites s)).2 = some e := h
  obtain ⟨k, w, hk, htr, hsv, hprev⟩ := runWrites_of_failure sink (plannedWrites s) e h'
  refine ⟨k, w, hk, ?_, hsv, hprev⟩
  rw [generate_spec]
  exact htr

/-- Witness for C7 on the concrete one-page site against the sink that
rejects every write: the run fails with that error, having attempted only
the first planned write. -/
theorem c7_failfast_witness :
    (site1.Generate failSink).2.2 = some "boom" ∧
    (∃ k w, (plannedWrites site1)[k]? = some w
      ∧ (site1.Generate failSink).1 = (plannedWrites site1).take (k + 1)
      ∧ failSink w.1 w.2 = some "boom"
      ∧ ∀ j v, j < k → (plannedWrites site1)[j]? = some v → failSink v.1 v.2 = none) :=
  ⟨rfl, c7_failfast site1 failSink "boom" rfl⟩

@[simp]
theorem strEmpty_append (a : String) : "" ++ a = a := rfl

@[simp]
theorem strAppend_empty (a : String) : a ++ "" = a := by
  rcases a with ⟨xs⟩
  show String.mk (xs ++ []) = String.mk xs
  rw [List.append_nil]

theorem strConcat_append (a b : List String) :
    strConcat (a ++ b) = strConcat a ++ strConcat b := by
  induction a with
  | nil => rfl
  | cons x xs ih =>
    rw [List.cons_append, strConcat_cons, strConcat_cons, ih, strAppend_assoc]

/-- The component loop of the section render keeps exactly the blocks of
the components whose markup capability is present, in order. -/
theorem sectionBody_filterMap (l : List Component) :
    strConcat (l.map fun c => match c.html with
      | some h => "    " ++ h ++ "\n"
      | none => "") =
    strConcat ((l.filterMap Component.html).map fun h => "    " ++ h ++ "\n") := by
  induction l with
  | nil => rfl
  | cons c cs ih =>
    rcases c with ⟨ch, cc, cj⟩
    cases ch with
    | some h => simp [List.filterMap_cons, ih]
    | none => simp [List.filterMap_cons, ih]

/-- C2: every title or identifier reaching the output in text context goes
through EscapeHTML and every value reaching attribute context goes through
EscapeAttr, and the escape functions never emit a raw angle bracket or
double quote — so no such character can originate from a caller-supplied
title. -/
theorem c2_escaping (t : String) (c : Char) (st : Site) (p : Page)
    (sb : SectionBuilder) (i : Nat)
    (hc : c ∈ (EscapeHTML t).data ∨ c ∈ (EscapeAttr t).data) :
    (c ≠ '<' ∧ c ≠ '>' ∧ c ≠ '\x22')
    ∧ (Page.RenderHTML st p).1 =
        docTitlePre ++ EscapeHTML p.title ++ docAfterTitle st.pages p.head p.sections
    ∧ sb.Render =
        "<section id=\"" ++ EscapeAttr sb.effectiveId ++ "\" class=\"page\">\n"
          ++ (if sb.Title = "" then "" else "  <h1>" ++ EscapeHTML sb.Title ++ "</h1>\n")
          ++ sectionTail sb
    ∧ navLink i p =
        (if i = 0 then "    <a class=\"home-link\" href=\"" else "    <a href=\"")
          ++ EscapeAttr p.filename ++ "\">" ++ EscapeHTML p.title ++ "</a>\n" := by
  refine ⟨?_, ?_, rfl, rfl⟩
  · rcases hc with h | h
    · exact escapeList_safe _ _ h
    · exact escapeList_safe _ _ h
  · rw [RenderHTML_eq]
    show pageMarkup st.pages p = _
    unfold pageMarkup docTitlePre docAfterTitle
    simp [strAppend_assoc]

/-- Witness for C2 on the spec's concrete title and the concrete two-page
site. -/
theorem c2_escaping_witness :
    (('C' : Char) ∈ (EscapeHTML "<b>\"Clinic\"</b>").data ∨
      'C' ∈ (EscapeAttr "<b>\"Clinic\"</b>").data) ∧
    (('C' ≠ '<' ∧ 'C' ≠ '>' ∧ 'C' ≠ '\x22')
    ∧ (Page.RenderHTML site2
         { title := "Contact", filename := "contact.html", sections := [], head := [] }).1 =
        docTitlePre ++ EscapeHTML "Contact"
          ++ docAfterTitle site2.pages [] []
    ∧ SectionBuilder.Render { Title := "Welcome", ModuleID := "", content := [] } =
        "<section id=\"" ++ EscapeAttr (SectionBuilder.effectiveId
            { Title := "Welcome", ModuleID := "", content := [] }) ++ "\" class=\"page\">\n"
          ++ (if ("Welcome" : String) = "" then ""
              else "  <h1>" ++ EscapeHTML "Welcome" ++ "</h1>\n")
          ++ sectionTail { Title := "Welcome", ModuleID := "", content := [] }
    ∧ navLink 0 { title := "Contact", filename := "contact.html", sections := [], head := [] } =
        (if (0 : Nat) = 0 then "    <a class=\"home-link\" href=\"" else "    <a href=\"")
          ++ EscapeAttr "contact.html" ++ "\">" ++ EscapeHTML "Contact" ++ "</a>\n") :=
  ⟨Or.inl (by decide),
   c2_escaping "<b>\"Clinic\"</b>" 'C' site2
     { title := "Contact", filename := "contact.html", sections := [], head := [] }
     { Title := "Welcome", ModuleID := "", content := [] } 0 (Or.inl (by decide))⟩

/-- C4: with at least two registered pages, BuildNav returns the fixed
header, exactly one link per registered page in registration order, and
the fixed footer; the link at index `i` targets the attribute-escaped
output name of the page at index `i` and carries its escaped title as
label. -/
theorem c4_nav_links (s : Site) (i : Nat) (p : Page)
    (h2 : 2 ≤ s.pages.length) (hi : s.pages[i]? = some p) :
    (s.BuildNav).1 = navbarHeader ++ strConcat (navLinkList 0 s.pages) ++ navbarFooter
    ∧ (navLinkList 0 s.pages).length = s.pages.length
    ∧ (navLinkList 0 s.pages)[i]? =
        some ((if i = 0 then "    <a class=\"home-link\" href=\"" else "    <a href=\"")
          ++ EscapeAttr p.filename ++ "\">" ++ EscapeHTML p.title ++ "</a>\n") := by
  refine ⟨?_, navLinkList_length 0 s.pages, ?_⟩
  · rw [BuildNav_eq]
    rfl
  · have hgl := navLinkList_get 0 s.pages i p hi
    rw [Nat.zero_add] at hgl
    rw [hgl]
    rfl

/-- Witness for C4 on the concrete two-page site at the second link. -/
theorem c4_nav_links_witness :
    (2 ≤ site2.pages.length ∧
      site2.pages[1]? =
        some { title := "Contact", filename := "contact.html", sections := [], head := [] }) ∧
    ((site2.BuildNav).1 = navbarHeader ++ strConcat (navLinkList 0 site2.pages) ++ navbarFooter
    ∧ (navLinkList 0 site2.pages).length = site2.pages.length
    ∧ (navLinkList 0 site2.pages)[1]? =
        some ((if (1 : Nat) = 0 then "    <a class=\"home-link\" href=\"" else "    <a href=\"")
          ++ EscapeAttr "contact.html" ++ "\">" ++ EscapeHTML "Contact" ++ "</a>\n")) :=
  ⟨⟨by decide, by decide⟩,
   c4_nav_links site2 1 { title := "Contact", filename := "contact.html", sections := [], head := [] }
     (by decide) (by decide)⟩

/-- C5 counterexample: BuildNav is not free of mutation — on the concrete
fresh site a single BuildNav call registers the navbar assets, so the site
afterwards differs from the site before. -/
theorem c5_counterexample : ((New cfg0).BuildNav).2 ≠ New cfg0 := by decide

/-- C5 amended: BuildNav's markup is a pure function of the current page
list; its only state effect is registering the navbar assets, so once
those are present — in particular after any earlier BuildNav, RenderHTML
on a multi-page site, or Generate — BuildNav, RenderHTML and Generate
leave the site (pages, sections and both registries) unchanged. -/
theorem c5_readonly (s s' : Site) (sink : Sink) (p : Page)
    (hp : s.pages = s'.pages)
    (hc : navbarCSS ∈ cssContents s) (hj : navbarJS ∈ jsContents s) :
    (s.BuildNav).1 = (s'.BuildNav).1
    ∧ (s.BuildNav).2 = s
    ∧ (Page.RenderHTML s p).2 = s
    ∧ (s.Generate sink).2.1 = s := by
  have hadd : addNav s = s := by
    unfold addNav
    rw [AddCSS_of_mem hc]
    exact AddJS_of_mem hj
  have hnav : navState s = s := by
    unfold navState
    split_ifs
    · exact hadd
    · rfl
  refine ⟨?_, ?_, ?_, ?_⟩
  · rw [BuildNav_eq, BuildNav_eq]
    show navMarkup s.pages = navMarkup s'.pages
    rw [hp]
  · rw [BuildNav_eq]
    exact hadd
  · rw [RenderHTML_eq]
    exact hnav
  · rw [generate_spec]
    exact hnav

/-- Witness for C5 amended on the concrete two-page site with the navbar
assets registered. -/
theorem c5_readonly_witness :
    (siteNav.pages = site2.pages ∧ navbarCSS ∈ cssContents siteNav
      ∧ navbarJS ∈ jsContents siteNav) ∧
    ((siteNav.BuildNav).1 = (site2.BuildNav).1
    ∧ (siteNav.BuildNav).2 = siteNav
    ∧ (Page.RenderHTML siteNav
        { title := "Home", filename := "index.html", sections := [], head := [] }).2 = siteNav
    ∧ (siteNav.Generate okSink).2.1 = siteNav) :=
  ⟨⟨rfl, by show navbarCSS ∈ [navbarCSS]; exact List.mem_singleton.mpr rfl,
      by show navbarJS ∈ [navbarJS]; exact List.mem_singleton.mpr rfl⟩,
   c5_readonly siteNav site2 okSink
     { title := "Home", filename := "index.html", sections := [], head := [] }
     rfl
     (by show navbarCSS ∈ [navbarCSS]; exact List.mem_singleton.mpr rfl)
     (by show navbarJS ∈ [navbarJS]; exact List.mem_singleton.mpr rfl)⟩

/-- C8: a section renders exactly the components that satisfy the markup
capability, in insertion order, and a component lacking the capability is
silently skipped: inserting it changes nothing in the rendered text, and
rendering is total — there is no error outcome. -/
theorem c8_capability_render (sb : SectionBuilder) (cs js : Option String) :
    sb.Render =
      "<section id=\"" ++ EscapeAttr sb.effectiveId ++ "\" class=\"page\">\n"
        ++ (if sb.Title = "" then "" else "  <h1>" ++ EscapeHTML sb.Title ++ "</h1>\n")
        ++ ("  <div class=\"card-container\">\n"
          ++ strConcat ((sb.content.filterMap Component.html).map fun h => "    " ++ h ++ "\n")
          ++ "  </div>\n</section>\n")
    ∧ SectionBuilder.Render
        { sb with content := sb.content ++ [{ html := none, css := cs, js := js }] } =
      sb.Render := by
  constructor
  · unfold SectionBuilder.Render
    rw [sectionBody_filterMap]
  · rcases sb with ⟨T, M, L⟩
    unfold SectionBuilder.Render SectionBuilder.effectiveId
    simp [List.map_append, strConcat_append]

/-- C10: the section wrapper always carries the attribute-escaped
identifier and the class `page`, the card container is always present even
with zero components, and the heading is emitted exactly when the title
is non-empty. -/
theorem c10_section_wrapper (sb : SectionBuilder) :
    sb.Render =
      "<section id=\"" ++ EscapeAttr sb.effectiveId ++ "\" class=\"page\">\n"
        ++ (if sb.Title = "" then "" else "  <h1>" ++ EscapeHTML sb.Title ++ "</h1>\n")
        ++ sectionTail sb
    ∧ SectionBuilder.Render { Title := sb.Title, ModuleID := sb.ModuleID, content := [] } =
      "<section id=\"" ++ EscapeAttr sb.effectiveId ++ "\" class=\"page\">\n"
        ++ (if sb.Title = "" then "" else "  <h1>" ++ EscapeHTML sb.Title ++ "</h1>\n")
        ++ ("  <div class=\"card-container\">\n" ++ "  </div>\n</section>\n") := by
  constructor
  · rfl
  · rcases sb with ⟨T, M, L⟩
    unfold SectionBuilder.Render SectionBuilder.effectiveId
    simp

/-- C9 counterexample: blank content is not ignored — on the concrete
fresh site, AddCSS with a single-space string appends a block and changes
the site. -/
theorem c9_counterexample : (New cfg0).AddCSS " " ≠ New cfg0 := by decide

/-- C9 amended: only exactly-empty content is ignored by AddCSS/AddJS (and
no error is signaled); any other content, blank or not, goes through the
usual deduplicating append. -/
theorem c9_empty_ignored (s : Site) (t : String) (ht : t ≠ "") :
    s.AddCSS "" = s ∧ s.AddJS "" = s
    ∧ s.AddCSS t = (if t ∈ cssContents s then s
        else { s with cssBlocks := s.cssBlocks ++ [{ Content := t }] })
    ∧ s.AddJS t = (if t ∈ jsContents s then s
        else { s with jsBlocks := s.jsBlocks ++ [{ Content := t }] }) := by
  refine ⟨?_, ?_, ?_, ?_⟩
  · unfold Site.AddCSS
    rw [if_pos rfl]
  · unfold Site.AddJS
    rw [if_pos rfl]
  · by_cases hm : t ∈ cssContents s
    · rw [if_pos hm]
      exact AddCSS_of_mem hm
    · rw [if_neg hm]
      exact AddCSS_of_not_mem ht hm
  · by_cases hm : t ∈ jsContents s
    · rw [if_pos hm]
      exact AddJS_of_mem hm
    · rw [if_neg hm]
      exact AddJS_of_not_mem ht hm

/-- Witness for C9 amended at the blank single-space text on the concrete
one-page site. -/
theorem c9_empty_ignored_witness :
    (" " : String) ≠ "" ∧
    (site1.AddCSS "" = site1 ∧ site1.AddJS "" = site1
    ∧ site1.AddCSS " " = (if " " ∈ cssContents site1 then site1
        else { site1 with cssBlocks := site1.cssBlocks ++ [{ Content := " " }] })
    ∧ site1.AddJS " " = (if " " ∈ jsContents site1 then site1
        else { site1 with jsBlocks := site1.jsBlocks ++ [{ Content := " " }] })) :=
  ⟨by decide, c9_empty_ignored site1 " " (by decide)⟩

end Gosite
